import Mathlib

set_option maxRecDepth 40000

/-!
Shallow embedding of `src/core/shadergen.cpp` (the `ShaderGen` shader-source
generator). Shader text is modelled as a `List String` of newline-terminated
lines exactly as the C++ writes them into its `std::stringstream`; every
emitted line is built by the same concatenations the source performs. The
`Assert` macro is modelled by returning `Option`: `none` means the assertion
fired and generation aborted. `u32` values that are printed are reduced
modulo `2 ^ 32`.
-/

/-- The `HostDisplay::RenderAPI` enumeration as consumed by shadergen.cpp. -/
inductive RenderAPI where
  | OpenGL
  | OpenGLES
  | D3D11
  | Vulkan
  deriving DecidableEq, Repr

/-- Modelled from the spec: the feature-query collaborator (the GL loader
whose `GLAD_GL_VERSION_x_y` / `GLAD_GL_ES_VERSION_x_y` globals and extension
flags shadergen.cpp reads, plus the driver-reported shading-language version
string).  A version flag is set exactly when the queried context version of
the corresponding family reaches that version; a family that is not loaded
reports version 0.0. -/
structure GladState where
  gl_major : Nat
  gl_minor : Nat
  gles_major : Nat
  gles_minor : Nat
  arb_explicit_attrib_location : Bool
  arb_explicit_uniform_location : Bool
  arb_shading_language_420pack : Bool
  arb_shader_storage_buffer_object : Bool
  ext_blend_func_extended : Bool
  shading_language_version : String
  deriving DecidableEq, Repr

/-- Version-at-least test used by the modelled GLAD flags. -/
def versionGE (maj mnr k l : Nat) : Bool :=
  decide (k < maj ∨ (maj = k ∧ l ≤ mnr))

/-- Modelled from the spec: `GLAD_GL_VERSION_3_2`. -/
def GLAD_GL_VERSION_3_2 (g : GladState) : Bool := versionGE g.gl_major g.gl_minor 3 2

/-- Modelled from the spec: `GLAD_GL_VERSION_4_2`. -/
def GLAD_GL_VERSION_4_2 (g : GladState) : Bool := versionGE g.gl_major g.gl_minor 4 2

/-- Modelled from the spec: `GLAD_GL_VERSION_4_3`. -/
def GLAD_GL_VERSION_4_3 (g : GladState) : Bool := versionGE g.gl_major g.gl_minor 4 3

/-- Modelled from the spec: `GLAD_GL_ES_VERSION_3_1`. -/
def GLAD_GL_ES_VERSION_3_1 (g : GladState) : Bool := versionGE g.gles_major g.gles_minor 3 1

/-- Modelled from the spec: `GLAD_GL_ES_VERSION_3_2`. -/
def GLAD_GL_ES_VERSION_3_2 (g : GladState) : Bool := versionGE g.gles_major g.gles_minor 3 2

/-- The skip loop of `SetGLSLVersionString`: advance past every leading
character that is not an ASCII digit (`while (*p != 0 && (*p < '0' || *p > '9')) p++`). -/
def skipNonDigits : List Char → List Char
  | [] => []
  | c :: cs => if '0' ≤ c ∧ c ≤ '9' then c :: cs else skipNonDigits cs

/-- C `isspace` characters skipped by a `%d` conversion. -/
def isCSpace (c : Char) : Bool :=
  c = ' ' ∨ c = '\t' ∨ c = '\n' ∨ c = '\r' ∨ c = Char.ofNat 11 ∨ c = Char.ofNat 12

/-- Skip leading C whitespace. -/
def skipCSpaces : List Char → List Char
  | [] => []
  | c :: cs => if isCSpace c then skipCSpaces cs else c :: cs

/-- Longest leading run of ASCII digits together with the rest. -/
def takeDigits : List Char → List Char × List Char
  | [] => ([], [])
  | c :: cs =>
    if c.isDigit then ((takeDigits cs).1.cons c, (takeDigits cs).2)
    else ([], c :: cs)

/-- Decimal value of a digit string. -/
def digitsVal (l : List Char) : Nat :=
  l.foldl (fun a c => a * 10 + (c.toNat - 48)) 0

/-- One `%d` conversion of `sscanf`: skip C whitespace, an optional sign,
then at least one digit; `none` if no digit is found. -/
def scanIntC (l : List Char) : Option (Int × List Char) :=
  let l1 := skipCSpaces l
  let sr : Int × List Char :=
    match l1 with
    | '-' :: r => (-1, r)
    | '+' :: r => (1, r)
    | _ => (1, l1)
  match takeDigits sr.2 with
  | ([], _) => none
  | (ds, r) => some (sr.1 * (digitsVal ds : Int), r)

/-- `std::sscanf(s, "%d.%d", &major, &minor) == 2`: both conversions and the
literal dot must match; any failure is `none`. -/
def scanMajorMinor (l : List Char) : Option (Int × Int) :=
  match scanIntC l with
  | none => none
  | some (a, r) =>
    match r with
    | '.' :: r2 =>
      match scanIntC r2 with
      | none => none
      | some (b, _) => some (a, b)
    | _ => none

/-- `snprintf` `%02d`: decimal representation zero-padded to at least two
characters. -/
def fmt02 (n : Int) : String :=
  let s := toString n
  if s.length < 2 then "0" ++ s else s

/-- The `snprintf(buf, "#version %d%02d%s", major, minor, es_suffix)` payload
after `#version `: major, zero-padded minor, and the " es" suffix emitted
exactly when the backend is embedded GL and major >= 3. -/
def versionCode (glsl_es : Bool) (maj mnr : Int) : String :=
  toString maj ++ fmt02 mnr ++ (if glsl_es = true ∧ 3 ≤ maj then " es" else "")

/-- The source's ceiling test for a parsed version (the condition under which
`SetGLSLVersionString` clamps): desktop above 4.30, embedded above 3.20. -/
def aboveCeiling : Bool → Int → Int → Prop
  | true, maj, mnr => 3 < maj ∨ (maj = 3 ∧ 20 < mnr)
  | false, maj, mnr => 4 < maj ∨ (maj = 4 ∧ 30 < mnr)

instance (es : Bool) (maj mnr : Int) : Decidable (aboveCeiling es maj mnr) :=
  match es with
  | true => inferInstanceAs (Decidable (3 < maj ∨ (maj = 3 ∧ 20 < mnr)))
  | false => inferInstanceAs (Decidable (4 < maj ∨ (maj = 4 ∧ 30 < mnr)))

/-- The clamping applied by `SetGLSLVersionString` to a successfully parsed
version (lines 50-60 of the source): cap desktop at 4.30 and embedded at
3.20, leave everything else unchanged. -/
def clampVersion (glsl_es : Bool) (maj mnr : Int) : Int × Int :=
  if glsl_es = false ∧ (4 < maj ∨ (maj = 4 ∧ 30 < mnr)) then (4, 30)
  else if glsl_es = true ∧ (3 < maj ∨ (maj = 3 ∧ 20 < mnr)) then (3, 20)
  else (maj, mnr)

/-- `ShaderGen::SetGLSLVersionString` for a present (non-null) driver string.
Returns the final `m_glsl_version_string` and whether `Log_ErrorPrintf` ran.
Note the source's parse-failure branch stores `"130"` / `"300"` into
`m_glsl_version_string`, but the `snprintf` that follows runs unconditionally
and overwrites that store with `#version %d%02d%s` built from the (possibly
still zero) `major_version` / `minor_version` variables; the model returns
that final overwritten value. -/
def SetGLSLVersionString (glsl_es : Bool) (glsl_version : String) : String × Bool :=
  match scanMajorMinor (skipNonDigits glsl_version.data) with
  | some (major0, minor0) =>
    let mm : Int × Int := clampVersion glsl_es major0 minor0
    ("#version " ++ versionCode glsl_es mm.1 mm.2, false)
  | none =>
    let mm : Int × Int := if glsl_es = true then (3, 0) else (0, 0)
    ("#version " ++ versionCode glsl_es mm.1 mm.2, true)

/-- The resolved capability record held by a `ShaderGen` instance. -/
structure ShaderGenState where
  m_render_api : RenderAPI
  m_glsl : Bool
  m_supports_dual_source_blend : Bool
  m_use_glsl_interface_blocks : Bool
  m_use_glsl_binding_layout : Bool
  m_glsl_version_string : String
  deriving DecidableEq, Repr

/-- `ShaderGen::IsVulkan`. -/
abbrev IsVulkan (sg : ShaderGenState) : Prop := sg.m_render_api = RenderAPI.Vulkan

/-- `ShaderGen::UseGLSLBindingLayout`. -/
def UseGLSLBindingLayout (g : GladState) : Bool :=
  GLAD_GL_ES_VERSION_3_1 g || GLAD_GL_VERSION_4_2 g ||
    (g.arb_explicit_attrib_location && g.arb_explicit_uniform_location &&
      g.arb_shading_language_420pack)

/-- The `ShaderGen` constructor: resolves the capability record once from the
backend, the dual-source-blend capability and the feature-query state. -/
def mkShaderGen (render_api : RenderAPI) (supports_dual_source_blend : Bool)
    (g : GladState) : ShaderGenState :=
  let glsl : Bool := decide (render_api ≠ RenderAPI.D3D11)
  let vstr : String × Bool :=
    if glsl = true ∧ (render_api = RenderAPI.OpenGL ∨ render_api = RenderAPI.OpenGLES) then
      SetGLSLVersionString (decide (render_api = RenderAPI.OpenGLES)) g.shading_language_version
    else ("", false)
  { m_render_api := render_api
    m_glsl := glsl
    m_supports_dual_source_blend := supports_dual_source_blend
    m_use_glsl_interface_blocks :=
      if glsl = true then
        decide (render_api = RenderAPI.Vulkan) || GLAD_GL_ES_VERSION_3_2 g || GLAD_GL_VERSION_3_2 g
      else false
    m_use_glsl_binding_layout :=
      if glsl = true then
        decide (render_api = RenderAPI.Vulkan) || UseGLSLBindingLayout g
      else false
    m_glsl_version_string := vstr.1 }

/-- `BoolToUInt32`. -/
def BoolToUInt32 (b : Bool) : Nat := if b then 1 else 0

/-- A printed `u32` value. -/
def u32str (n : Nat) : String := toString (n % 4294967296)

/-- `ShaderGen::DefineMacro`: one `#define name 0/1` line. -/
def DefineMacro (name : String) (enabled : Bool) : List String :=
  ["#define " ++ name ++ " " ++ toString (BoolToUInt32 enabled)]

/-- Version-directive part of `WriteHeader` (lines 81-84). -/
def versionDirectiveChunk (sg : ShaderGenState) : List String :=
  if sg.m_render_api = RenderAPI.OpenGL ∨ sg.m_render_api = RenderAPI.OpenGLES then
    [sg.m_glsl_version_string, ""]
  else if sg.m_render_api = RenderAPI.Vulkan then
    ["#version 450 core", ""]
  else []

/-- Extension-enabling part of `WriteHeader` (lines 87-109). -/
def extensionChunk (sg : ShaderGenState) (g : GladState) : List String :=
  if sg.m_render_api = RenderAPI.OpenGLES then
    (if g.ext_blend_func_extended then ["#extension GL_EXT_blend_func_extended : require"]
     else [])
  else if sg.m_render_api = RenderAPI.OpenGL then
    (if sg.m_use_glsl_binding_layout && !(GLAD_GL_VERSION_4_3 g) then
      ["#extension GL_ARB_explicit_attrib_location : require",
       "#extension GL_ARB_explicit_uniform_location : require",
       "#extension GL_ARB_shading_language_420pack : require"]
     else []) ++
    (if !(GLAD_GL_VERSION_3_2 g) then ["#extension GL_ARB_uniform_buffer_object : require"]
     else []) ++
    (if !(GLAD_GL_VERSION_4_3 g) && !(GLAD_GL_ES_VERSION_3_1 g) &&
        g.arb_shader_storage_buffer_object then
      ["#extension GL_ARB_shader_storage_buffer_object : require"]
     else [])
  else []

/-- The four backend-identity macros of `WriteHeader` (lines 111-114). -/
def apiMacroChunk (sg : ShaderGenState) : List String :=
  DefineMacro "API_OPENGL" (decide (sg.m_render_api = RenderAPI.OpenGL)) ++
  DefineMacro "API_OPENGL_ES" (decide (sg.m_render_api = RenderAPI.OpenGLES)) ++
  DefineMacro "API_D3D11" (decide (sg.m_render_api = RenderAPI.D3D11)) ++
  DefineMacro "API_VULKAN" (decide (sg.m_render_api = RenderAPI.Vulkan))

/-- Embedded-GL precision qualifiers of `WriteHeader` (lines 116-126). -/
def precisionChunk (sg : ShaderGenState) (g : GladState) : List String :=
  if sg.m_render_api = RenderAPI.OpenGLES then
    ["precision highp float;", "precision highp int;", "precision highp sampler2D;"] ++
    (if GLAD_GL_ES_VERSION_3_2 g then ["precision highp usamplerBuffer;"] else []) ++
    [""]
  else []

/-- The GLSL-family dialect shim of `WriteHeader` (lines 130-163). -/
def glslShimLines : List String :=
  ["#define GLSL 1",
   "#define float2 vec2",
   "#define float3 vec3",
   "#define float4 vec4",
   "#define int2 ivec2",
   "#define int3 ivec3",
   "#define int4 ivec4",
   "#define uint2 uvec2",
   "#define uint3 uvec3",
   "#define uint4 uvec4",
   "#define float2x2 mat2",
   "#define float3x3 mat3",
   "#define float4x4 mat4",
   "#define mul(x, y) ((x) * (y))",
   "#define nointerpolation flat",
   "#define frac fract",
   "#define lerp mix",
   "#define CONSTANT const",
   "#define VECTOR_EQ(a, b) ((a) == (b))",
   "#define VECTOR_NEQ(a, b) ((a) != (b))",
   "#define VECTOR_COMP_EQ(a, b) equal((a), (b))",
   "#define VECTOR_COMP_NEQ(a, b) notEqual((a), (b))",
   "#define SAMPLE_TEXTURE(name, coords) texture(name, coords)",
   "#define LOAD_TEXTURE(name, coords, mip) texelFetch(name, coords, mip)",
   "#define LOAD_TEXTURE_OFFSET(name, coords, mip, offset) texelFetchOffset(name, coords, mip, offset)",
   "#define LOAD_TEXTURE_BUFFER(name, index) texelFetch(name, index)",
   "#define BEGIN_ARRAY(type, size) type[size](",
   "#define END_ARRAY )",
   "float saturate(float value) \x7b return clamp(value, 0.0, 1.0); \x7d",
   "float2 saturate(float2 value) \x7b return clamp(value, float2(0.0, 0.0), float2(1.0, 1.0)); \x7d",
   "float3 saturate(float3 value) \x7b return clamp(value, float3(0.0, 0.0, 0.0), float3(1.0, 1.0, 1.0)); \x7d",
   "float4 saturate(float4 value) \x7b return clamp(value, float4(0.0, 0.0, 0.0, 0.0), float4(1.0, 1.0, 1.0, 1.0)); \x7d"]

/-- The HLSL-family dialect shim of `WriteHeader` (lines 167-193). -/
def hlslShimLines : List String :=
  ["#define HLSL 1",
   "#define roundEven round",
   "#define mix lerp",
   "#define fract frac",
   "#define vec2 float2",
   "#define vec3 float3",
   "#define vec4 float4",
   "#define ivec2 int2",
   "#define ivec3 int3",
   "#define ivec4 int4",
   "#define uivec2 uint2",
   "#define uivec3 uint3",
   "#define uivec4 uint4",
   "#define mat2 float2x2",
   "#define mat3 float3x3",
   "#define mat4 float4x4",
   "#define CONSTANT static const",
   "#define VECTOR_EQ(a, b) (all((a) == (b)))",
   "#define VECTOR_NEQ(a, b) (any((a) != (b)))",
   "#define VECTOR_COMP_EQ(a, b) ((a) == (b))",
   "#define VECTOR_COMP_NEQ(a, b) ((a) != (b))",
   "#define SAMPLE_TEXTURE(name, coords) name.Sample(name##_ss, coords)",
   "#define LOAD_TEXTURE(name, coords, mip) name.Load(int3(coords, mip))",
   "#define LOAD_TEXTURE_OFFSET(name, coords, mip, offset) name.Load(int3(coords, mip), offset)",
   "#define LOAD_TEXTURE_BUFFER(name, index) name.Load(index)",
   "#define BEGIN_ARRAY(type, size) \x7b",
   "#define END_ARRAY \x7d"]

/-- Dialect-shim part of `WriteHeader` (lines 128-194). -/
def shimChunk (sg : ShaderGenState) : List String :=
  if sg.m_glsl then glslShimLines else hlslShimLines

/-- `ShaderGen::WriteHeader`. -/
def WriteHeader (sg : ShaderGenState) (g : GladState) : List String :=
  versionDirectiveChunk sg ++ extensionChunk sg g ++ apiMacroChunk sg ++
  precisionChunk sg g ++ shimChunk sg ++ [""]

/-- `ShaderGen::WriteUniformBufferDeclaration`. -/
def WriteUniformBufferDeclaration (sg : ShaderGenState) (push_constant_on_vulkan : Bool) :
    List String :=
  if IsVulkan sg then
    if push_constant_on_vulkan then ["layout(push_constant) uniform PushConstants"]
    else ["layout(std140, set = 0, binding = 0) uniform UBOBlock"]
  else if sg.m_glsl then
    if sg.m_use_glsl_binding_layout then ["layout(std140, binding = 1) uniform UBOBlock"]
    else ["layout(std140) uniform UBOBlock"]
  else ["cbuffer UBOBlock : register(b0)"]

/-- `ShaderGen::DeclareUniformBuffer`. -/
def DeclareUniformBuffer (sg : ShaderGenState) (members : List String)
    (push_constant_on_vulkan : Bool) : List String :=
  WriteUniformBufferDeclaration sg push_constant_on_vulkan ++
  ["\x7b"] ++ members.map (fun m => m ++ ";") ++ ["\x7d;", ""]

/-- `ShaderGen::DeclareTexture`.  On Vulkan the binding index is the logical
index plus one (`index + 1u`, a `u32` addition). -/
def DeclareTexture (sg : ShaderGenState) (name : String) (index : Nat) : List String :=
  if sg.m_glsl then
    [(if IsVulkan sg then "layout(set = 0, binding = " ++ u32str (index + 1) ++ ") "
      else if sg.m_use_glsl_binding_layout then "layout(binding = " ++ u32str index ++ ") "
      else "") ++ "uniform sampler2D " ++ name ++ ";"]
  else
    ["Texture2D " ++ name ++ " : register(t" ++ u32str index ++ ");",
     "SamplerState " ++ name ++ "_ss : register(s" ++ u32str index ++ ");"]

/-- `ShaderGen::DeclareTextureBuffer`.  On Vulkan the binding index is the
logical index itself (no offset). -/
def DeclareTextureBuffer (sg : ShaderGenState) (name : String) (index : Nat)
    (is_int : Bool) (is_unsigned : Bool) : List String :=
  if sg.m_glsl then
    [(if IsVulkan sg then "layout(set = 0, binding = " ++ u32str index ++ ") "
      else if sg.m_use_glsl_binding_layout then "layout(binding = " ++ u32str index ++ ") "
      else "") ++ "uniform " ++
      (if is_int then (if is_unsigned then "u" else "i") else "") ++
      "samplerBuffer " ++ name ++ ";"]
  else
    ["Buffer<" ++ (if is_int then (if is_unsigned then "uint4" else "int4") else "float4") ++
      "> " ++ name ++ " : register(t" ++ u32str index ++ ");"]

/-- Interface-block member line for a color output/input. -/
def glslBlockColorLine (i : Nat) : String := "  float4 v_col" ++ toString i ++ ";"

/-- Interface-block member line for a texcoord output/input. -/
def glslBlockTexLine (i : Nat) : String := "  float2 v_tex" ++ toString i ++ ";"

/-- Interface-block member line for an additional output/input. -/
def glslBlockAddLine (qn : String × String) : String := "  " ++ qn.1 ++ " " ++ qn.2 ++ ";"

/-- `ShaderGen::DeclareVertexEntryPoint`. -/
def DeclareVertexEntryPoint (sg : ShaderGenState) (attributes : List String)
    (num_color_outputs num_texcoord_outputs : Nat)
    (additional_outputs : List (String × String)) (declare_vertex_id : Bool)
    (output_block_suffix : String) : List String :=
  if sg.m_glsl then
    (if sg.m_use_glsl_binding_layout then
      attributes.enum.map
        (fun p => "layout(location = " ++ toString p.1 ++ ") in " ++ p.2 ++ ";")
     else attributes.map (fun a => "in " ++ a ++ ";")) ++
    (if sg.m_use_glsl_interface_blocks then
      [(if IsVulkan sg then "layout(location = 0) " else "") ++
        "out VertexData" ++ output_block_suffix ++ " \x7b"] ++
      (List.range num_color_outputs).map glslBlockColorLine ++
      (List.range num_texcoord_outputs).map glslBlockTexLine ++
      additional_outputs.map glslBlockAddLine ++
      ["\x7d;"]
     else
      (List.range num_color_outputs).map (fun i => "out float4 v_col" ++ toString i ++ ";") ++
      (List.range num_texcoord_outputs).map (fun i => "out float2 v_tex" ++ toString i ++ ";") ++
      additional_outputs.map (fun qn => qn.1 ++ " out " ++ qn.2 ++ ";")) ++
    ["#define v_pos gl_Position", ""] ++
    (if declare_vertex_id then
      if IsVulkan sg then ["#define v_id uint(gl_VertexIndex)"]
      else ["#define v_id uint(gl_VertexID)"]
     else []) ++
    ["", "void main()"]
  else
    ["void main("] ++
    (if declare_vertex_id then ["  in uint v_id : SV_VertexID,"] else []) ++
    attributes.enum.map (fun p => "  in " ++ p.2 ++ " : ATTR" ++ toString p.1 ++ ",") ++
    (List.range num_color_outputs).map
      (fun i => "  out float4 v_col" ++ toString i ++ " : COLOR" ++ toString i ++ ",") ++
    (List.range num_texcoord_outputs).map
      (fun i => "  out float2 v_tex" ++ toString i ++ " : TEXCOORD" ++ toString i ++ ",") ++
    additional_outputs.enum.map
      (fun p => "  " ++ p.2.1 ++ " out " ++ p.2.2 ++ " : TEXCOORD" ++
        toString (num_texcoord_outputs + p.1) ++ ",") ++
    ["  out float4 v_pos : SV_Position)"]

/-- HLSL fragment color-input parameter line. -/
def hlslFragColorInLine (i : Nat) : String :=
  "  in float4 v_col" ++ toString i ++ " : COLOR" ++ toString i ++ ","

/-- HLSL fragment texcoord-input parameter line. -/
def hlslFragTexInLine (i : Nat) : String :=
  "  in float2 v_tex" ++ toString i ++ " : TEXCOORD" ++ toString i ++ ","

/-- HLSL fragment additional-input parameter line. -/
def hlslFragAddInLine (num_texcoord_inputs : Nat) (p : Nat × (String × String)) : String :=
  "  " ++ p.2.1 ++ " in " ++ p.2.2 ++ " : TEXCOORD" ++
    toString (num_texcoord_inputs + p.1) ++ ","

/-- HLSL fragment depth-output parameter line: trailing comma when color
outputs follow, otherwise the closing parenthesis. -/
def hlslFragDepthLine (num_color_outputs : Nat) : String :=
  "  out float o_depth : SV_Depth" ++ (if 0 < num_color_outputs then "," else ")")

/-- HLSL fragment color-output parameter line (`SV_Target<i>`): the last one
carries the closing parenthesis, the others a comma. -/
def hlslFragColorOutLine (num_color_outputs i : Nat) : String :=
  "  out float4 o_col" ++ toString i ++ " : SV_Target" ++ toString i ++
    (if i = num_color_outputs - 1 then ")" else ",")

/-- GLSL fragment color-output line with binding layout and dual-source blend. -/
def glslDSBOutLine (i : Nat) : String :=
  "layout(location = 0, index = " ++ toString i ++ ") out float4 o_col" ++ toString i ++ ";"

/-- GLSL fragment color-output line with binding layout, no dual-source blend:
the source emits the fixed text `location = 0` directly followed by the index. -/
def glslNoDSBOutLine (i : Nat) : String :=
  "layout(location = 0" ++ toString i ++ ") out float4 o_col" ++ toString i ++ ";"

/-- GLSL fragment color-output line without binding layout. -/
def glslPlainOutLine (i : Nat) : String :=
  "out float4 o_col" ++ toString i ++ ";"

/-- `ShaderGen::DeclareFragmentEntryPoint`.  `none` models the
`Assert(num_color_outputs <= 1)` firing in the GLSL-with-binding-layout,
no-dual-source-blend branch; no other branch asserts. -/
def DeclareFragmentEntryPoint (sg : ShaderGenState)
    (num_color_inputs num_texcoord_inputs : Nat)
    (additional_inputs : List (String × String)) (declare_fragcoord : Bool)
    (num_color_outputs : Nat) (depth_output : Bool) : Option (List String) :=
  if sg.m_glsl then
    let inputLines : List String :=
      if sg.m_use_glsl_interface_blocks then
        [(if IsVulkan sg then "layout(location = 0) " else "") ++ "in VertexData \x7b"] ++
        (List.range num_color_inputs).map glslBlockColorLine ++
        (List.range num_texcoord_inputs).map glslBlockTexLine ++
        additional_inputs.map glslBlockAddLine ++
        ["\x7d;"]
      else
        (List.range num_color_inputs).map (fun i => "in float4 v_col" ++ toString i ++ ";") ++
        (List.range num_texcoord_inputs).map (fun i => "in float2 v_tex" ++ toString i ++ ";") ++
        additional_inputs.map (fun qn => qn.1 ++ " in " ++ qn.2 ++ ";")
    let fragLines : List String :=
      if declare_fragcoord then ["#define v_pos gl_FragCoord"] else []
    let depthLines : List String :=
      if depth_output then ["#define o_depth gl_FragDepth"] else []
    let outLines : Option (List String) :=
      if sg.m_use_glsl_binding_layout then
        if sg.m_supports_dual_source_blend then
          some ((List.range num_color_outputs).map glslDSBOutLine)
        else if num_color_outputs ≤ 1 then
          some ((List.range num_color_outputs).map glslNoDSBOutLine)
        else none
      else some ((List.range num_color_outputs).map glslPlainOutLine)
    outLines.map (fun ol => inputLines ++ fragLines ++ depthLines ++ ol ++ ["", "void main()"])
  else
    some (["void main("] ++
      (List.range num_color_inputs).map hlslFragColorInLine ++
      (List.range num_texcoord_inputs).map hlslFragTexInLine ++
      additional_inputs.enum.map (hlslFragAddInLine num_texcoord_inputs) ++
      (if declare_fragcoord then ["  in float4 v_pos : SV_Position,"] else []) ++
      (if depth_output then [hlslFragDepthLine num_color_outputs] else []) ++
      (List.range num_color_outputs).map (hlslFragColorOutLine num_color_outputs))

/-- `ShaderGen::GenerateScreenQuadVertexShader`. -/
def GenerateScreenQuadVertexShader (sg : ShaderGenState) (g : GladState) : List String :=
  WriteHeader sg g ++
  DeclareVertexEntryPoint sg [] 0 1 [] true "" ++
  ["",
   "\x7b",
   "  v_tex0 = float2(float((v_id << 1) & 2u), float(v_id & 2u));",
   "  v_pos = float4(v_tex0 * float2(2.0f, -2.0f) + float2(-1.0f, 1.0f), 0.0f, 1.0f);",
   "  #if API_OPENGL || API_OPENGL_ES || API_VULKAN",
   "    v_pos.y = -v_pos.y;",
   "  #endif",
   "\x7d"]

/-- `ShaderGen::GenerateFillFragmentShader`. -/
def GenerateFillFragmentShader (sg : ShaderGenState) (g : GladState) : Option (List String) :=
  (DeclareFragmentEntryPoint sg 0 1 [] false 1 true).map (fun entry =>
    WriteHeader sg g ++
    DeclareUniformBuffer sg ["float4 u_fill_color"] true ++
    entry ++
    ["",
     "\x7b",
     "  o_col0 = u_fill_color;",
     "  o_depth = u_fill_color.a;",
     "\x7d"])

/-- `ShaderGen::GenerateCopyFragmentShader`. -/
def GenerateCopyFragmentShader (sg : ShaderGenState) (g : GladState) : Option (List String) :=
  (DeclareFragmentEntryPoint sg 0 1 [] false 1 false).map (fun entry =>
    WriteHeader sg g ++
    DeclareUniformBuffer sg ["float4 u_src_rect"] true ++
    DeclareTexture sg "samp0" 0 ++
    entry ++
    ["",
     "\x7b",
     "  float2 coords = u_src_rect.xy + v_tex0 * u_src_rect.zw;",
     "  o_col0 = SAMPLE_TEXTURE(samp0, coords);",
     "\x7d"])

/-! Concrete feature-query states and constructed generators used by the
claim theorems. -/

/-- A desktop GL 4.6 context reporting GLSL "4.60" with the usual extensions. -/
def gladDesktop460 : GladState :=
  { gl_major := 4, gl_minor := 6, gles_major := 0, gles_minor := 0,
    arb_explicit_attrib_location := true, arb_explicit_uniform_location := true,
    arb_shading_language_420pack := true, arb_shader_storage_buffer_object := true,
    ext_blend_func_extended := false, shading_language_version := "4.60" }

/-- A desktop GL 4.2 context reporting GLSL "4.20". -/
def gladDesktop42 : GladState :=
  { gl_major := 4, gl_minor := 2, gles_major := 0, gles_minor := 0,
    arb_explicit_attrib_location := true, arb_explicit_uniform_location := true,
    arb_shading_language_420pack := true, arb_shader_storage_buffer_object := false,
    ext_blend_func_extended := false, shading_language_version := "4.20" }

/-- A desktop GL 3.0 context without binding-layout extensions. -/
def gladDesktop30 : GladState :=
  { gl_major := 3, gl_minor := 0, gles_major := 0, gles_minor := 0,
    arb_explicit_attrib_location := false, arb_explicit_uniform_location := false,
    arb_shading_language_420pack := false, arb_shader_storage_buffer_object := false,
    ext_blend_func_extended := false, shading_language_version := "1.30" }

/-- A desktop GL 3.2 context. -/
def gladDesktop32 : GladState :=
  { gl_major := 3, gl_minor := 2, gles_major := 0, gles_minor := 0,
    arb_explicit_attrib_location := false, arb_explicit_uniform_location := false,
    arb_shading_language_420pack := false, arb_shader_storage_buffer_object := false,
    ext_blend_func_extended := false, shading_language_version := "1.50" }

/-- A desktop GL 3.1 context. -/
def gladDesktop31 : GladState :=
  { gl_major := 3, gl_minor := 1, gles_major := 0, gles_minor := 0,
    arb_explicit_attrib_location := false, arb_explicit_uniform_location := false,
    arb_shading_language_420pack := false, arb_shader_storage_buffer_object := false,
    ext_blend_func_extended := false, shading_language_version := "1.40" }

/-- An empty feature-query state (no GL context loaded), as seen by the
Vulkan and D3D11 backends. -/
def gladNone : GladState :=
  { gl_major := 0, gl_minor := 0, gles_major := 0, gles_minor := 0,
    arb_explicit_attrib_location := false, arb_explicit_uniform_location := false,
    arb_shading_language_420pack := false, arb_shader_storage_buffer_object := false,
    ext_blend_func_extended := false, shading_language_version := "" }

/-- Generator for desktop GL 4.6. -/
def sgGL460 : ShaderGenState := mkShaderGen RenderAPI.OpenGL true gladDesktop460

/-- Generator for desktop GL 4.2 without dual-source blend. -/
def sgGL42noDSB : ShaderGenState := mkShaderGen RenderAPI.OpenGL false gladDesktop42

/-- Generator for desktop GL 3.0 (no binding layout) without dual-source blend. -/
def sgGL30noDSB : ShaderGenState := mkShaderGen RenderAPI.OpenGL false gladDesktop30

/-- Generator for the Vulkan backend. -/
def sgVulkan : ShaderGenState := mkShaderGen RenderAPI.Vulkan false gladNone

/-- Generator for the D3D11 backend without dual-source blend. -/
def sgD3D : ShaderGenState := mkShaderGen RenderAPI.D3D11 false gladNone

/-! String-level utilities used to state the claims. -/

/-- Bool-valued list-prefix test on characters. -/
def listStarts : List Char → List Char → Bool
  | [], _ => true
  | _ :: _, [] => false
  | p :: ps, c :: cs => if p = c then listStarts ps cs else false

/-- A mismatch strictly inside the overlap of two character lists; if
`clash p q = true` then no extension of `p` equals `q` and `q` cannot start
with `p`. -/
def clash : List Char → List Char → Bool
  | [], _ => false
  | _ :: _, [] => false
  | p :: ps, c :: cs => if p = c then clash ps cs else true

/-- String-level prefix test. -/
def lineStarts (p s : String) : Bool := listStarts p.data s.data

/-- String-level suffix test. -/
def endsWithStr (suf s : String) : Bool := listStarts suf.data.reverse s.data.reverse

/-- A line is a backend-identity macro definition iff it starts with
`#define API_`. -/
def isApiIdentityLine (s : String) : Bool := lineStarts "#define API_" s

/-- The parameter lines of an HLSL entry point are correctly punctuated:
every line but the last ends with a comma and the last ends with the single
closing parenthesis. -/
def hlslParamsPunctuated : List String → Bool
  | [] => false
  | [l] => endsWithStr ")" l
  | l :: l2 :: ls => endsWithStr "," l && hlslParamsPunctuated (l2 :: ls)

/-- Bool-valued list-prefix test on lines. -/
def strsStart : List String → List String → Bool
  | [], _ => true
  | _ :: _, [] => false
  | p :: ps, s :: ss => if p = s then strsStart ps ss else false

/-- `hasRun pat ls` holds iff `pat` occurs as a contiguous run of lines
inside `ls`. -/
def hasRun (pat : List String) : List String → Bool
  | [] => decide (pat = [])
  | l :: ls => strsStart pat (l :: ls) || hasRun pat ls

/-- The queried version of the active GL context family is at least 3.2
(claim C6's "GL backend whose queried version is >= 3.2"). -/
def glBackendVersionGE32 (ra : RenderAPI) (g : GladState) : Bool :=
  match ra with
  | RenderAPI.OpenGL => versionGE g.gl_major g.gl_minor 3 2
  | RenderAPI.OpenGLES => versionGE g.gles_major g.gles_minor 3 2
  | _ => false

/-- A feature-query state is consistent with the active backend: the GL
family that is not the active context reports version 0. -/
def contextMatches (ra : RenderAPI) (g : GladState) : Prop :=
  (ra = RenderAPI.OpenGL → g.gles_major = 0) ∧
  (ra = RenderAPI.OpenGLES → g.gl_major = 0)

/-! Helper lemmas about the string utilities. -/

theorem clash_nil (q : List Char) : clash [] q = false := rfl

theorem listStarts_clash_false (p : List Char) :
    ∀ q r, clash p q = true → listStarts p (q ++ r) = false := by
  induction p with
  | nil => intro q r h; rw [clash_nil] at h; exact absurd h (by simp)
  | cons a ps ih =>
    intro q r h
    cases q with
    | nil => simp [clash] at h
    | cons b qs =>
      by_cases hab : a = b
      · subst hab
        have h' : clash ps qs = true := by simpa [clash] using h
        simp [List.cons_append, listStarts, ih qs r h']
      · simp [List.cons_append, listStarts, hab]

theorem clash_self_append (p r : List Char) : clash p (p ++ r) = false := by
  induction p with
  | nil => rfl
  | cons a ps ih => simp [List.cons_append, clash, ih]

theorem listStarts_self_append (p r : List Char) : listStarts p (p ++ r) = true := by
  induction p with
  | nil => rfl
  | cons a ps ih => simp [List.cons_append, listStarts, ih]

theorem clash_ne_str (a t b : String) (h : clash a.data b.data = true) : a ++ t ≠ b := by
  intro he
  have hd : a.data ++ t.data = b.data := by rw [← String.data_append, he]
  rw [← hd, clash_self_append] at h
  exact absurd h (by simp)

theorem lineStarts_clash_str (p a t : String) (h : clash p.data a.data = true) :
    lineStarts p (a ++ t) = false := by
  unfold lineStarts
  rw [String.data_append]
  exact listStarts_clash_false p.data a.data t.data h

theorem endsWithStr_append (a s : String) : endsWithStr s (a ++ s) = true := by
  unfold endsWithStr
  rw [String.data_append, List.reverse_append]
  exact listStarts_self_append _ _

/-! Claim theorems. -/

/-- Claim C1 (code bug evidence): for a present but unparsable version string
the error is logged and generation continues, and the embedded-GL result is
the documented "300 es" fallback directive, but the desktop-GL result is
"#version 000", not the documented "130" fallback: the source stores the
"130" fallback into `m_glsl_version_string` and then unconditionally
overwrites it with `snprintf("#version %d%02d", 0, 0)`. -/
theorem c1_unparsable_fallback_bug :
    SetGLSLVersionString false "unknown" = ("#version 000", true) ∧
    SetGLSLVersionString true "unknown" = ("#version 300 es", true) ∧
    ("#version 000" : String) ≠ "#version 130" := by decide

/-- Claim C8: the full-screen-quad vertex shader generated for DesktopGL
(GLSL "4.60") contains the Y-flip block guarded by the `#if` conditional on
`API_OPENGL`, and the one generated for the Vulkan backend defines `v_id`
from the Vulkan-specific `gl_VertexIndex` built-in and nowhere uses the
generic `gl_VertexID` alias line. -/
theorem c8_screen_quad_roundtrip :
    hasRun ["  #if API_OPENGL || API_OPENGL_ES || API_VULKAN",
            "    v_pos.y = -v_pos.y;",
            "  #endif"] (GenerateScreenQuadVertexShader sgGL460 gladDesktop460) = true ∧
    "#define v_id uint(gl_VertexIndex)" ∈ GenerateScreenQuadVertexShader sgVulkan gladNone ∧
    "#define v_id uint(gl_VertexID)" ∉ GenerateScreenQuadVertexShader sgVulkan gladNone := by
  decide

/-- Claim C9: the solid-fill fragment shader for the D3D backend contains an
`SV_Depth`-annotated output parameter and a `cbuffer ... register(b0)` block,
while the Vulkan one (push-constant form requested by the assembler) contains
a `layout(push_constant)` uniform block and no descriptor-set binding form. -/
theorem c9_fill_shader_dialect_blocks :
    "cbuffer UBOBlock : register(b0)" ∈ (GenerateFillFragmentShader sgD3D gladNone).getD [] ∧
    "  out float o_depth : SV_Depth," ∈ (GenerateFillFragmentShader sgD3D gladNone).getD [] ∧
    "layout(push_constant) uniform PushConstants" ∈
      (GenerateFillFragmentShader sgVulkan gladNone).getD [] ∧
    "layout(std140, set = 0, binding = 0) uniform UBOBlock" ∉
      (GenerateFillFragmentShader sgVulkan gladNone).getD [] := by
  decide

/-- Claim C3 (counterexample): at index 0 on Vulkan, `DeclareTexture` emits
binding 1 (one-slot offset) but `DeclareTextureBuffer` emits binding 0 — the
texel-buffer declaration does not apply the one-slot offset the claim
asserts. -/
theorem c3_counterexample :
    DeclareTexture sgVulkan "samp0" 0 =
      ["layout(set = 0, binding = 1) uniform sampler2D samp0;"] ∧
    DeclareTextureBuffer sgVulkan "samp0" 0 false false =
      ["layout(set = 0, binding = 0) uniform samplerBuffer samp0;"] ∧
    DeclareTextureBuffer sgVulkan "samp0" 0 false false ≠
      ["layout(set = 0, binding = 1) uniform samplerBuffer samp0;"] := by decide

/-- Claim C3 (amended): on Vulkan, `DeclareTexture` emits a set/binding
qualifier whose binding is the logical index offset by one slot, while
`DeclareTextureBuffer` differs from the texture declaration also in the
binding: it uses the logical index unchanged (besides the sample-type and
buffer-texture syntax differences). -/
theorem c3_amended (name : String) (index : Nat) (is_int is_unsigned : Bool)
    (h : index + 1 < 4294967296) :
    DeclareTexture sgVulkan name index =
      ["layout(set = 0, binding = " ++ toString (index + 1) ++ ") " ++
        "uniform sampler2D " ++ name ++ ";"] ∧
    DeclareTextureBuffer sgVulkan name index is_int is_unsigned =
      ["layout(set = 0, binding = " ++ toString index ++ ") " ++ "uniform " ++
        (if is_int then (if is_unsigned then "u" else "i") else "") ++
        "samplerBuffer " ++ name ++ ";"] := by
  have hglsl : sgVulkan.m_glsl = true := rfl
  have hvk : sgVulkan.m_render_api = RenderAPI.Vulkan := rfl
  have h1 : (index + 1) % 4294967296 = index + 1 := Nat.mod_eq_of_lt h
  have h2 : index % 4294967296 = index := Nat.mod_eq_of_lt (by omega)
  constructor
  · simp [DeclareTexture, IsVulkan, hglsl, hvk, u32str, h1]
  · simp [DeclareTextureBuffer, IsVulkan, hglsl, hvk, u32str, h2]

/-- Witness for the amended claim C3 at name "samp0", index 0. -/
theorem c3_witness :
    DeclareTexture sgVulkan "samp0" 0 =
      ["layout(set = 0, binding = " ++ toString (0 + 1) ++ ") " ++
        "uniform sampler2D " ++ "samp0" ++ ";"] ∧
    DeclareTextureBuffer sgVulkan "samp0" 0 false false =
      ["layout(set = 0, binding = " ++ toString 0 ++ ") " ++ "uniform " ++
        (if false then (if false then "u" else "i") else "") ++
        "samplerBuffer " ++ "samp0" ++ ";"] :=
  c3_amended "samp0" 0 false false (by decide)

/-- Claim C2 (counterexample): with dual-source blend unsupported and two
color outputs requested, the GLSL-without-binding-layout branch (desktop GL
3.0 generator) and the HLSL branch (D3D11 generator) both complete without
the assertion firing — the assertion is not raised for every backend. -/
theorem c2_counterexample :
    DeclareFragmentEntryPoint sgGL30noDSB 0 0 [] false 2 false ≠ none ∧
    DeclareFragmentEntryPoint sgD3D 0 0 [] false 2 false ≠ none := by decide

/-- Claim C2 (amended): the `Assert(num_color_outputs <= 1)` contract check
aborts `DeclareFragmentEntryPoint` exactly when the dialect is GLSL, the
binding layout is in use, dual-source blend is unsupported and at least two
color outputs are requested; the GLSL-without-binding-layout and HLSL
branches never assert. -/
theorem c2_amended (sg : ShaderGenState) (nci nti : Nat)
    (ai : List (String × String)) (fc : Bool) (n : Nat) (dp : Bool) :
    DeclareFragmentEntryPoint sg nci nti ai fc n dp = none ↔
      (sg.m_glsl = true ∧ sg.m_use_glsl_binding_layout = true ∧
        sg.m_supports_dual_source_blend = false ∧ 2 ≤ n) := by
  unfold DeclareFragmentEntryPoint
  cases hg : sg.m_glsl with
  | false => simp [hg]
  | true =>
    cases hb : sg.m_use_glsl_binding_layout with
    | false => simp [hb]
    | true =>
      cases hd : sg.m_supports_dual_source_blend with
      | false =>
        by_cases hn : n ≤ 1
        · simp [hb, hd, hn]
          omega
        · simp [hb, hd, hn]
          omega
      | true => simp [hb, hd]

theorem punct_append_commas (xs ys : List String)
    (hx : ∀ l ∈ xs, endsWithStr "," l = true)
    (hy : hlslParamsPunctuated ys = true) :
    hlslParamsPunctuated (xs ++ ys) = true := by
  induction xs with
  | nil => simpa using hy
  | cons x xs ih =>
    have hx' : ∀ l ∈ xs, endsWithStr "," l = true :=
      fun l hl => hx l (List.mem_cons_of_mem _ hl)
    have hxx : endsWithStr "," x = true := hx x (List.mem_cons_self _ _)
    have htail := ih hx'
    cases hxy : xs ++ ys with
    | nil =>
      rw [List.append_eq_nil] at hxy
      rw [hxy.2] at hy
      simp [hlslParamsPunctuated] at hy
    | cons z zs =>
      rw [List.cons_append, hxy]
      rw [hxy] at htail
      simp [hlslParamsPunctuated, hxx, htail]

theorem punct_outChunk (n : Nat) (h : 1 ≤ n) :
    hlslParamsPunctuated ((List.range n).map (hlslFragColorOutLine n)) = true := by
  obtain ⟨m, rfl⟩ : ∃ m, n = m + 1 := ⟨n - 1, by omega⟩
  rw [List.range_succ, List.map_append]
  apply punct_append_commas
  · intro l hl
    simp only [List.mem_map, List.mem_range] at hl
    obtain ⟨i, hi, rfl⟩ := hl
    unfold hlslFragColorOutLine
    rw [if_neg (by omega)]
    exact endsWithStr_append _ _
  · show hlslParamsPunctuated [hlslFragColorOutLine (m + 1) m] = true
    unfold hlslParamsPunctuated hlslFragColorOutLine
    rw [if_pos (by omega)]
    exact endsWithStr_append _ _

theorem punct_tail (n : Nat) (dp : Bool) (h : dp = true ∨ 1 ≤ n) :
    hlslParamsPunctuated
      ((if dp then [hlslFragDepthLine n] else []) ++
        (List.range n).map (hlslFragColorOutLine n)) = true := by
  cases dp with
  | false =>
    have hn : 1 ≤ n := by
      rcases h with h | h
      · exact absurd h (by simp)
      · exact h
    simpa using punct_outChunk n hn
  | true =>
    rw [if_pos rfl]
    by_cases hn : 1 ≤ n
    · apply punct_append_commas
      · intro l hl
        rw [List.mem_singleton] at hl
        subst hl
        unfold hlslFragDepthLine
        rw [if_pos (by omega)]
        exact endsWithStr_append _ _
      · exact punct_outChunk n hn
    · have hn0 : n = 0 := by omega
      subst hn0
      show hlslParamsPunctuated [hlslFragDepthLine 0] = true
      unfold hlslParamsPunctuated hlslFragDepthLine
      rw [if_neg (by omega)]
      exact endsWithStr_append _ _

/-- Claim C4 (counterexample): in the HLSL branch with zero color outputs and
no depth output, the parameter list keeps a trailing comma and is never
closed by a parenthesis — the punctuation is not syntactically valid for
that edge case. -/
theorem c4_counterexample :
    DeclareFragmentEntryPoint sgD3D 1 1 [] false 0 false =
      some ["void main(",
            "  in float4 v_col0 : COLOR0,",
            "  in float2 v_tex0 : TEXCOORD0,"] ∧
    hlslParamsPunctuated
      ["  in float4 v_col0 : COLOR0,", "  in float2 v_tex0 : TEXCOORD0,"] = false := by
  decide

/-- Claim C4 (amended): whenever a depth output or at least one color output
is requested, the HLSL-family fragment entry point's parameter list is
correctly punctuated: every parameter but the last ends with a comma and the
last carries the single closing parenthesis.  In the remaining edge case
(`num_color_outputs = 0` and no depth output) no closing parenthesis is
emitted at all. -/
theorem c4_amended (sg : ShaderGenState) (hg : sg.m_glsl = false)
    (nci nti : Nat) (ai : List (String × String)) (fc : Bool) (n : Nat) (dp : Bool)
    (h : dp = true ∨ 1 ≤ n) :
    ∃ params, DeclareFragmentEntryPoint sg nci nti ai fc n dp =
        some ("void main(" :: params) ∧ hlslParamsPunctuated params = true := by
  refine ⟨((List.range nci).map hlslFragColorInLine ++
      (List.range nti).map hlslFragTexInLine ++
      ai.enum.map (hlslFragAddInLine nti) ++
      (if fc then ["  in float4 v_pos : SV_Position,"] else [])) ++
    ((if dp then [hlslFragDepthLine n] else []) ++
      (List.range n).map (hlslFragColorOutLine n)), ?_, ?_⟩
  · unfold DeclareFragmentEntryPoint
    rw [hg]
    simp [List.append_assoc]
  · apply punct_append_commas
    · intro l hl
      simp only [List.mem_append] at hl
      rcases hl with ((hl | hl) | hl) | hl
      · simp only [List.mem_map, List.mem_range] at hl
        obtain ⟨i, _, rfl⟩ := hl
        exact endsWithStr_append _ _
      · simp only [List.mem_map, List.mem_range] at hl
        obtain ⟨i, _, rfl⟩ := hl
        exact endsWithStr_append _ _
      · simp only [List.mem_map] at hl
        obtain ⟨p, _, rfl⟩ := hl
        exact endsWithStr_append _ _
      · cases fc with
        | false => simp at hl
        | true =>
          rw [if_pos rfl, List.mem_singleton] at hl
          subst hl
          decide
    · exact punct_tail n dp h

/-- Witness for the amended claim C4 at the D3D generator with one color
output and a depth output. -/
theorem c4_witness :
    ∃ params, DeclareFragmentEntryPoint sgD3D 0 0 [] false 1 true =
        some ("void main(" :: params) ∧ hlslParamsPunctuated params = true :=
  c4_amended sgD3D rfl 0 0 [] false 1 true (Or.inl rfl)

/-- Claim C5: for every successfully parsed driver version the directive is
clamped to the ceiling (desktop 4.30, embedded 3.20): a version strictly
above the ceiling yields exactly the ceiling's directive, and otherwise the
directive is `#version` followed by the major and the zero-padded two-digit
minor, with an " es" suffix exactly when the backend is embedded and the
major is at least 3. -/
theorem c5_version_clamp_and_format (es : Bool) (s : String) (maj mnr : Int)
    (h : scanMajorMinor (skipNonDigits s.data) = some (maj, mnr)) :
    (aboveCeiling es maj mnr →
      (SetGLSLVersionString es s).1 =
        (if es = true then "#version 320 es" else "#version 430")) ∧
    (¬ aboveCeiling es maj mnr →
      (SetGLSLVersionString es s).1 =
        "#version " ++ toString maj ++ fmt02 mnr ++
          (if es = true ∧ 3 ≤ maj then " es" else "")) := by
  have hset : SetGLSLVersionString es s =
      ("#version " ++ versionCode es (clampVersion es maj mnr).1 (clampVersion es maj mnr).2,
        false) := by
    unfold SetGLSLVersionString
    rw [h]
  rw [hset]
  cases es with
  | false =>
    constructor
    · intro hab
      have hc : clampVersion false maj mnr = (4, 30) := by
        unfold clampVersion
        rw [if_pos ⟨rfl, hab⟩]
      rw [hc]
      decide
    · intro hnab
      have hc : clampVersion false maj mnr = (maj, mnr) := by
        unfold clampVersion
        rw [if_neg (fun hcon => hnab hcon.2), if_neg (by simp)]
      rw [hc]
      simp [versionCode, String.append_assoc]
  | true =>
    constructor
    · intro hab
      have hc : clampVersion true maj mnr = (3, 20) := by
        unfold clampVersion
        rw [if_neg (by simp), if_pos ⟨rfl, hab⟩]
      rw [hc]
      decide
    · intro hnab
      have hc : clampVersion true maj mnr = (maj, mnr) := by
        unfold clampVersion
        rw [if_neg (by simp), if_neg (fun hcon => hnab hcon.2)]
      rw [hc]
      simp [versionCode, String.append_assoc]

/-- Witness for claim C5: desktop "4.60" clamps to "#version 430"; embedded
"3.10" is below the ceiling and formats as major 3, minor 10, " es". -/
theorem c5_witness :
    (SetGLSLVersionString false "4.60").1 = "#version 430" ∧
    (SetGLSLVersionString true "3.10").1 =
      "#version " ++ toString (3 : Int) ++ fmt02 10 ++
        (if true = true ∧ 3 ≤ (3 : Int) then " es" else "") := by
  constructor
  · have h := (c5_version_clamp_and_format false "4.60" 4 60 (by decide)).1 (by decide)
    simpa using h
  · exact (c5_version_clamp_and_format true "3.10" 3 10 (by decide)).2 (by decide)

/-- Claim C6: for every backend and feature-query state consistent with the
backend's context family, the resolved `m_use_glsl_interface_blocks` flag is
true iff the backend is Vulkan, or it is a GL backend (desktop or embedded)
whose queried context version is at least 3.2. -/
theorem c6_interface_blocks (ra : RenderAPI) (dsb : Bool) (g : GladState)
    (h : contextMatches ra g) :
    (mkShaderGen ra dsb g).m_use_glsl_interface_blocks = true ↔
      (ra = RenderAPI.Vulkan ∨
        ((ra = RenderAPI.OpenGL ∨ ra = RenderAPI.OpenGLES) ∧
          glBackendVersionGE32 ra g = true)) := by
  obtain ⟨h1, h2⟩ := h
  cases ra with
  | OpenGL =>
    have hz : g.gles_major = 0 := h1 rfl
    have hfield : (mkShaderGen RenderAPI.OpenGL dsb g).m_use_glsl_interface_blocks =
        (decide (RenderAPI.OpenGL = RenderAPI.Vulkan) || GLAD_GL_ES_VERSION_3_2 g ||
          GLAD_GL_VERSION_3_2 g) := rfl
    have hdv : decide (RenderAPI.OpenGL = RenderAPI.Vulkan) = false := rfl
    have hes : GLAD_GL_ES_VERSION_3_2 g = false := by
      unfold GLAD_GL_ES_VERSION_3_2 versionGE
      rw [hz]
      simp
    rw [hfield, hdv, hes]
    simp only [Bool.false_or]
    constructor
    · intro hgl
      exact Or.inr ⟨Or.inl (by trivial), hgl⟩
    · rintro (hv | ⟨_, hge⟩)
      · exact absurd hv (by decide)
      · exact hge
  | OpenGLES =>
    have hz : g.gl_major = 0 := h2 rfl
    have hfield : (mkShaderGen RenderAPI.OpenGLES dsb g).m_use_glsl_interface_blocks =
        (decide (RenderAPI.OpenGLES = RenderAPI.Vulkan) || GLAD_GL_ES_VERSION_3_2 g ||
          GLAD_GL_VERSION_3_2 g) := rfl
    have hdv : decide (RenderAPI.OpenGLES = RenderAPI.Vulkan) = false := rfl
    have hgl32 : GLAD_GL_VERSION_3_2 g = false := by
      unfold GLAD_GL_VERSION_3_2 versionGE
      rw [hz]
      simp
    rw [hfield, hdv, hgl32]
    simp only [Bool.false_or, Bool.or_false]
    constructor
    · intro hgl
      exact Or.inr ⟨Or.inr (by trivial), hgl⟩
    · rintro (hv | ⟨_, hge⟩)
      · exact absurd hv (by decide)
      · exact hge
  | D3D11 =>
    have hfield : (mkShaderGen RenderAPI.D3D11 dsb g).m_use_glsl_interface_blocks = false := rfl
    rw [hfield]
    simp [glBackendVersionGE32]
  | Vulkan =>
    have hfield : (mkShaderGen RenderAPI.Vulkan dsb g).m_use_glsl_interface_blocks = true := rfl
    rw [hfield]
    simp

/-- Witness for claim C6 at the boundary versions: desktop GL 3.2 resolves
interface blocks to true, desktop GL 3.1 to false. -/
theorem c6_witness :
    (mkShaderGen RenderAPI.OpenGL false gladDesktop32).m_use_glsl_interface_blocks = true ∧
    ¬ ((mkShaderGen RenderAPI.OpenGL false gladDesktop31).m_use_glsl_interface_blocks
        = true) := by
  constructor
  · exact (c6_interface_blocks RenderAPI.OpenGL false gladDesktop32
      ⟨fun _ => rfl, fun hc => absurd hc (by decide)⟩).mpr
      (Or.inr ⟨Or.inl rfl, by decide⟩)
  · intro hc
    have hiff := (c6_interface_blocks RenderAPI.OpenGL false gladDesktop31
      ⟨fun _ => rfl, fun hcon => absurd hcon (by decide)⟩).mp hc
    rcases hiff with hv | ⟨_, hge⟩
    · exact absurd hv (by decide)
    · exact absurd hge (by decide)

/-- Claim C10: with binding layout in use and dual-source blend unsupported
(desktop GL 4.2 generator without dual-source blend), requesting one color
output makes the GLSL fragment entry point declare it with the literal text
`layout(location = 00)` — the fixed prefix `location = 0` directly
concatenated with the output index 0 — and not `layout(location = 0)`;
requesting two or more outputs makes the assertion abort the call, so no
other input shape reaches this branch. -/
theorem c10_location_zero_concat (nci nti : Nat) (fc dp : Bool) :
    (∃ ls, DeclareFragmentEntryPoint sgGL42noDSB nci nti [] fc 1 dp = some ls ∧
      "layout(location = 00) out float4 o_col0;" ∈ ls ∧
      "layout(location = 0) out float4 o_col0;" ∉ ls) ∧
    (∀ n, 2 ≤ n → DeclareFragmentEntryPoint sgGL42noDSB nci nti [] fc n dp = none) := by
  constructor
  · refine ⟨_, rfl, ?_, ?_⟩
    · have h00 : glslNoDSBOutLine 0 = "layout(location = 00) out float4 o_col0;" := by decide
      rw [← h00]
      simp [List.mem_append]
    · intro hm
      have hib : sgGL42noDSB.m_use_glsl_interface_blocks = true := rfl
      have hra : sgGL42noDSB.m_render_api = RenderAPI.OpenGL := rfl
      have hcol : ∀ i, glslBlockColorLine i ≠ "layout(location = 0) out float4 o_col0;" := by
        intro i
        unfold glslBlockColorLine
        rw [String.append_assoc]
        exact clash_ne_str _ _ _ (by decide)
      have htex : ∀ i, glslBlockTexLine i ≠ "layout(location = 0) out float4 o_col0;" := by
        intro i
        unfold glslBlockTexLine
        rw [String.append_assoc]
        exact clash_ne_str _ _ _ (by decide)
      simp only [hib, IsVulkan, hra, List.map_nil, List.mem_append, List.mem_map,
        List.mem_range, List.mem_cons, List.not_mem_nil, or_false, false_or,
        List.mem_singleton, List.append_nil, if_true, reduceIte] at hm
      rcases hm with ((((((h | ⟨a, ha, h⟩) | ⟨a, ha, h⟩) | h) | h) | h) | ⟨a, ha, h⟩) | h | h
      · exact absurd h (by decide)
      · exact hcol a h
      · exact htex a h
      · exact absurd h (by decide)
      · revert h
        cases fc <;> decide
      · revert h
        cases dp <;> decide
      · have ha0 : a = 0 := by omega
        subst ha0
        exact absurd h (by decide)
      · exact absurd h (by decide)
      · exact absurd h (by decide)
  · intro n hn
    have hg : sgGL42noDSB.m_glsl = true := rfl
    have hb : sgGL42noDSB.m_use_glsl_binding_layout = true := rfl
    have hd : sgGL42noDSB.m_supports_dual_source_blend = false := rfl
    simp only [DeclareFragmentEntryPoint, hg, hb, hd]
    simp [show ¬ (n ≤ 1) from by omega]

/-- Witness for claim C10 at a concrete input shape: no inputs, no fragcoord,
no depth; one output emits the `00` line, two outputs abort. -/
theorem c10_witness :
    (∃ ls, DeclareFragmentEntryPoint sgGL42noDSB 0 0 [] false 1 false = some ls ∧
      "layout(location = 00) out float4 o_col0;" ∈ ls ∧
      "layout(location = 0) out float4 o_col0;" ∉ ls) ∧
    DeclareFragmentEntryPoint sgGL42noDSB 0 0 [] false 2 false = none :=
  ⟨(c10_location_zero_concat 0 0 false false).1,
   (c10_location_zero_concat 0 0 false false).2 2 (by omega)⟩

theorem SetGLSLVersionString_version_line (es : Bool) (s : String) :
    ∃ t, (SetGLSLVersionString es s).1 = "#version " ++ t := by
  unfold SetGLSLVersionString
  cases h : scanMajorMinor (skipNonDigits s.data) with
  | none => exact ⟨_, rfl⟩
  | some mm =>
    obtain ⟨a, b⟩ := mm
    exact ⟨_, rfl⟩

theorem filter_api_versionChunk (sg : ShaderGenState)
    (h : ∀ _ : (sg.m_render_api = RenderAPI.OpenGL ∨ sg.m_render_api = RenderAPI.OpenGLES),
      ∃ t, sg.m_glsl_version_string = "#version " ++ t) :
    (versionDirectiveChunk sg).filter isApiIdentityLine = [] := by
  unfold versionDirectiveChunk
  split
  next hgl =>
    obtain ⟨t, ht⟩ := h hgl
    rw [ht]
    have h1 : isApiIdentityLine ("#version " ++ t) = false := by
      unfold isApiIdentityLine
      exact lineStarts_clash_str _ _ _ (by decide)
    have h2 : isApiIdentityLine "" = false := by decide
    simp [List.filter_cons, h1, h2]
  next =>
    split
    · decide
    · rfl

theorem filter_api_extensionChunk (sg : ShaderGenState) (g : GladState) :
    (extensionChunk sg g).filter isApiIdentityLine = [] := by
  rw [List.filter_eq_nil_iff]
  intro a ha
  unfold extensionChunk at ha
  split at ha
  · split at ha
    · rw [List.mem_singleton] at ha
      subst ha
      decide
    · simp at ha
  · split at ha
    · simp only [List.mem_append] at ha
      rcases ha with (ha | ha) | ha
      · split at ha
        · simp only [List.mem_cons, List.not_mem_nil, or_false] at ha
          rcases ha with ha | ha | ha <;> subst ha <;> decide
        · simp at ha
      · split at ha
        · rw [List.mem_singleton] at ha
          subst ha
          decide
        · simp at ha
      · split at ha
        · rw [List.mem_singleton] at ha
          subst ha
          decide
        · simp at ha
    · simp at ha

theorem filter_api_precisionChunk (sg : ShaderGenState) (g : GladState) :
    (precisionChunk sg g).filter isApiIdentityLine = [] := by
  rw [List.filter_eq_nil_iff]
  intro a ha
  unfold precisionChunk at ha
  split at ha
  · split at ha
    · simp only [List.mem_append, List.mem_cons, List.mem_singleton,
        List.not_mem_nil, or_false] at ha
      rcases ha with ((rfl | rfl | rfl) | rfl) | rfl <;> decide
    · simp only [List.mem_append, List.mem_cons, List.mem_singleton,
        List.not_mem_nil, or_false, List.nil_append, List.append_nil] at ha
      rcases ha with (rfl | rfl | rfl) | rfl <;> decide
  · simp at ha

theorem filter_api_shimChunk (sg : ShaderGenState) :
    (shimChunk sg).filter isApiIdentityLine = [] := by
  unfold shimChunk
  split
  · decide
  · decide

/-- Claim C7: for every backend and feature-query state, the emitted header
contains exactly the four backend-identity macro lines (API_OPENGL,
API_OPENGL_ES, API_D3D11, API_VULKAN, in that order), each defined as 0 or 1
and never omitted, with exactly one of the four flags set — the one matching
the active backend. -/
theorem c7_api_identity_macros (ra : RenderAPI) (dsb : Bool) (g : GladState) :
    (WriteHeader (mkShaderGen ra dsb g) g).filter isApiIdentityLine =
      DefineMacro "API_OPENGL" (decide (ra = RenderAPI.OpenGL)) ++
      DefineMacro "API_OPENGL_ES" (decide (ra = RenderAPI.OpenGLES)) ++
      DefineMacro "API_D3D11" (decide (ra = RenderAPI.D3D11)) ++
      DefineMacro "API_VULKAN" (decide (ra = RenderAPI.Vulkan)) ∧
    (∀ b : Bool, BoolToUInt32 b = 0 ∨ BoolToUInt32 b = 1) ∧
    ([decide (ra = RenderAPI.OpenGL), decide (ra = RenderAPI.OpenGLES),
      decide (ra = RenderAPI.D3D11), decide (ra = RenderAPI.Vulkan)].count true = 1) := by
  refine ⟨?_, fun b => by cases b <;> simp [BoolToUInt32], by cases ra <;> decide⟩
  have hver : ∀ _ : ((mkShaderGen ra dsb g).m_render_api = RenderAPI.OpenGL ∨
      (mkShaderGen ra dsb g).m_render_api = RenderAPI.OpenGLES),
      ∃ t, (mkShaderGen ra dsb g).m_glsl_version_string = "#version " ++ t := by
    intro hc
    cases ra with
    | OpenGL => exact SetGLSLVersionString_version_line false g.shading_language_version
    | OpenGLES => exact SetGLSLVersionString_version_line true g.shading_language_version
    | D3D11 =>
      have hr : (mkShaderGen RenderAPI.D3D11 dsb g).m_render_api = RenderAPI.D3D11 := rfl
      rw [hr] at hc
      rcases hc with hc | hc <;> exact RenderAPI.noConfusion hc
    | Vulkan =>
      have hr : (mkShaderGen RenderAPI.Vulkan dsb g).m_render_api = RenderAPI.Vulkan := rfl
      rw [hr] at hc
      rcases hc with hc | hc <;> exact RenderAPI.noConfusion hc
  simp only [WriteHeader, List.filter_append]
  rw [filter_api_versionChunk _ hver, filter_api_extensionChunk, filter_api_precisionChunk,
    filter_api_shimChunk]
  have hlast : ([""] : List String).filter isApiIdentityLine = [] := by decide
  rw [hlast]
  simp only [List.nil_append, List.append_nil]
  cases ra with
  | OpenGL =>
    have hac : apiMacroChunk (mkShaderGen RenderAPI.OpenGL dsb g) =
        DefineMacro "API_OPENGL" true ++ DefineMacro "API_OPENGL_ES" false ++
        DefineMacro "API_D3D11" false ++ DefineMacro "API_VULKAN" false := rfl
    rw [hac]
    decide
  | OpenGLES =>
    have hac : apiMacroChunk (mkShaderGen RenderAPI.OpenGLES dsb g) =
        DefineMacro "API_OPENGL" false ++ DefineMacro "API_OPENGL_ES" true ++
        DefineMacro "API_D3D11" false ++ DefineMacro "API_VULKAN" false := rfl
    rw [hac]
    decide
  | D3D11 =>
    have hac : apiMacroChunk (mkShaderGen RenderAPI.D3D11 dsb g) =
        DefineMacro "API_OPENGL" false ++ DefineMacro "API_OPENGL_ES" false ++
        DefineMacro "API_D3D11" true ++ DefineMacro "API_VULKAN" false := rfl
    rw [hac]
    decide
  | Vulkan =>
    have hac : apiMacroChunk (mkShaderGen RenderAPI.Vulkan dsb g) =
        DefineMacro "API_OPENGL" false ++ DefineMacro "API_OPENGL_ES" false ++
        DefineMacro "API_D3D11" false ++ DefineMacro "API_VULKAN" true := rfl
    rw [hac]
    decide
